import Mathlib

/-!
Verification of the durable graph execution engine described by the
repository's specification, together with the concrete demo graphs found in
the source tree (sequential, looping, retry, interrupt/resume, durability).

The engine itself (state merge, scheduler, retry loop, checkpointing,
interrupt handling) lives in the third-party framework the scripts call
into; those parts are modelled from the specification, as indicated by each
definition's doc comment.  The node functions and graph wirings are
translated directly from the repository's Python files.
-/

namespace LangGraph

/-! ## State container: merge with per-field reducers (spec §4.1) -/

/-- Modelled from the spec: a state is a mapping from field name to value;
we represent it as a total function from keys to values.  A partial update
assigns new values to a subset of the keys. -/
def Partial (κ : Type) (α : Type) := κ → Option α

/-- Modelled from the spec (§4.1): `merge(current, partial, field_reducers)`.
For each key present in `partial`, apply that key's reducer against
`current[key]` and `partial[key]`; keys absent from `partial` are untouched. -/
def merge {κ α : Type} (current : κ → α) (part : Partial κ α)
    (reducers : κ → α → α → α) : κ → α :=
  fun k =>
    match part k with
    | some v => reducers k (current k) v
    | none => current k

/-- The `replace` reducer: last write wins (spec §3, the default). -/
def replaceReducer {α : Type} : α → α → α := fun _ new => new

/-- The empty partial update: assigns no key.  This is what a node returning
`{}` contributes (e.g. `print_node` in `src/02-graph-patterns/retry.py`,
which returns `{}`). -/
def emptyPartial {κ α : Type} : Partial κ α := fun _ => none

/-! ## Append reducer (spec §3, `operator.add` on list fields) -/

/-- Modelled from the spec: applying a sequence of updates to a field whose
reducer is `append` (list concatenation, as with
`Annotated[list, operator.add]` in `src/01-graph-basics/graph-api/edge.py`)
folds concatenation over the updates in application order. -/
def applyAppendUpdates {α : Type} (init : List α) (updates : List (List α)) :
    List α :=
  updates.foldl (fun acc u => acc ++ u) init

/-! ## Append-with-upsert reducer (`add_messages`,
`src/01-graph-basics/graph-api/state.py`) -/

/-- A message carries an identity and a content payload. -/
structure Message where
  id : Nat
  content : String
  deriving DecidableEq, Repr

/-- Modelled from the spec and the note in
`src/01-graph-basics/graph-api/state.py`: merging one incoming message into
an existing list.  If a message with the same id already exists, the
incoming message replaces it in place; otherwise it is appended at the end. -/
def upsertOne (existing : List Message) (m : Message) : List Message :=
  if existing.any (fun x => x.id = m.id) then
    existing.map (fun x => if x.id = m.id then m else x)
  else
    existing ++ [m]

/-- Modelled from the spec: the `add_messages` reducer merges each incoming
message in order via `upsertOne`. -/
def add_messages (existing incoming : List Message) : List Message :=
  incoming.foldl upsertOne existing

/-! ## Retry backoff (spec §4.2 and the `RetryPolicy` options comment in
`src/graph_patterns/retry.py`) -/

/-- Modelled from the spec: the delay before retry attempt number `attempt`
is `base * factor ^ (attempt - 1)`, where `factor` is the policy's
`backoff_factor`.  With `backoff_factor = 2` the delay doubles after each
failed attempt, as the source comment states. -/
def backoffDelay (factor base attempt : Nat) : Nat :=
  base * factor ^ (attempt - 1)

/-- The default `backoff_factor` as documented in the source comment of
`src/graph_patterns/retry.py` (line 42: "backoff_factor: Controls
exponential backoff timing (default: 1)"). -/
def defaultBackoffFactor : Nat := 1

/-! ## Interrupt/resume demo (`src/graph_human_in_loop/interrupt.py`) -/

namespace Interrupt

/-- The node names of the four-node interrupt graph, plus the terminal
marker `END`. -/
inductive INode where
  | node_a | node_b | node_c | node_d | endNode
  deriving DecidableEq, Repr

/-- A `Command` bundles a state update with an explicit next-node override
(`goto`), as returned by every node of `interrupt.py`.  The state of this
graph is the single string field `value`. -/
structure Command where
  goto : INode
  update : String
  deriving DecidableEq, Repr

/-- Node A: appends `"a"` to the value and routes to node B. -/
def node_a (value : String) : Command :=
  ⟨.node_b, value ++ "a"⟩

/-- Node B after resumption: `interrupt(...)` has returned `humanResponse`;
the node appends `"b"` and routes to C when the response is `"C"`, else D. -/
def node_b (value : String) (humanResponse : String) : Command :=
  ⟨if humanResponse = "C" then .node_c else .node_d, value ++ "b"⟩

/-- Node C: appends `"c"` and ends the workflow. -/
def node_c (value : String) : Command :=
  ⟨.endNode, value ++ "c"⟩

/-- Node D: appends `"d"` and ends the workflow. -/
def node_d (value : String) : Command :=
  ⟨.endNode, value ++ "d"⟩

/-- The internal identifier paired with node B's interrupt (spec §3:
"a suspension signal ... paired with an internal identifier").  Its value
is arbitrary but fixed. -/
def node_b_interrupt_id : Nat := 0

/-- Modelled from the spec: a checkpoint records the state value, the
pending next-node, and the pending interrupt identifier (if any). -/
structure Checkpoint where
  value : String
  node : INode
  pending : Option Nat
  deriving DecidableEq, Repr

/-- Modelled from the spec: the error raised when a resume value is
supplied for a thread with no pending interrupt or a non-matching id. -/
inductive ResumeMismatchError where
  | resumeMismatch
  deriving DecidableEq, Repr

/-- The outcome of a run: completion with a final value, or a halt in the
`INTERRUPTED` state at a checkpoint, or fuel exhaustion. -/
inductive RunResult where
  | completed (final : String)
  | interrupted (ckpt : Checkpoint)
  | outOfFuel
  deriving DecidableEq, Repr

/-- Modelled from the spec: the executor walks the graph from `node`,
following each command's `goto`.  When node B runs with no resume value
available, it raises its interrupt: execution halts after recording a
checkpoint whose pending set holds node B and its interrupt id (spec §4.5
step 4; node B's own update is not applied, since the node suspends before
returning).  When a resume value is available, node B re-runs with that
value injected as the return value of its `interrupt()` call, and the
value is consumed. -/
def runGraph : Nat → INode → String → Option String → RunResult
  | 0, _, _, _ => .outOfFuel
  | fuel + 1, n, value, resumeVal =>
    match n with
    | .node_a => runGraph fuel (node_a value).goto (node_a value).update resumeVal
    | .node_b =>
      match resumeVal with
      | none => .interrupted ⟨value, .node_b, some node_b_interrupt_id⟩
      | some v => runGraph fuel (node_b value v).goto (node_b value v).update none
    | .node_c => runGraph fuel (node_c value).goto (node_c value).update resumeVal
    | .node_d => runGraph fuel (node_d value).goto (node_d value).update resumeVal
    | .endNode => .completed value

/-- `graph_app.invoke(initial_state, config)`: a fresh invocation starts at
the entry point `node_a` with no resume value available. -/
def graph_app_invoke (init : String) : RunResult :=
  runGraph 10 .node_a init none

/-- Modelled from the spec: resuming a thread from its latest checkpoint
with a resume value keyed by interrupt id `resumeId`.  If the checkpoint
has no pending interrupt, or the supplied id does not match the pending
one, `ResumeMismatchError` is raised; otherwise the interrupted node is
re-invoked with the value injected at its suspension point. -/
def graph_app_resume (ckpt : Checkpoint) (resumeId : Nat) (v : String) :
    Except ResumeMismatchError RunResult :=
  match ckpt.pending with
  | none => .error .resumeMismatch
  | some pid =>
    if resumeId = pid then .ok (runGraph 10 ckpt.node ckpt.value (some v))
    else .error .resumeMismatch

end Interrupt

/-! ## Looping demo (`src/graph_patterns/looping.py`) -/

namespace Looping

/-- The looping demo's state: `name`, `numbers`, `counter`. -/
structure AgentState where
  name : String
  numbers : List Nat
  counter : Nat
  deriving DecidableEq, Repr

/-- Greets the user and initializes the counter (unconditionally to 0). -/
def greeting_node (s : AgentState) : AgentState :=
  { s with
    name := "Hey " ++ s.name ++ ", how is your day going?"
    counter := 0 }

/-- Appends a random integer to the numbers list and increments the
counter.  The random draw is supplied externally as `rnd`. -/
def random_number_node (rnd : Nat) (s : AgentState) : AgentState :=
  { s with numbers := s.numbers ++ [rnd], counter := s.counter + 1 }

/-- Returns the edge label: loop again while `counter < 5`, else finish. -/
def should_continue_node (s : AgentState) : String :=
  if s.counter < 5 then "continue_edge" else "finish_edge"

/-- Modelled from the spec: the executor's loop over the cycle
`random_number_node → should_continue_router → (conditional edge)`.
`rnd` supplies the random draw for each iteration (indexed by the counter,
which counts loop-body executions since the greeting reset it to 0); the
identity routing node `should_continue_router` contributes no state
change.  The label `"continue_edge"` routes back to `random_number_node`,
`"finish_edge"` routes to `END`.  Fuel bounds the number of iterations. -/
def loopFrom (rnd : Nat → Nat) : Nat → AgentState → Option AgentState
  | 0, _ => none
  | fuel + 1, s =>
    let s' := random_number_node (rnd s.counter) s
    if should_continue_node s' = "continue_edge" then loopFrom rnd fuel s'
    else some s'

/-- `app.invoke(initial_state)`: the entry node `greeting_node` runs first,
then the loop. -/
def app_invoke (rnd : Nat → Nat) (fuel : Nat) (s : AgentState) :
    Option AgentState :=
  loopFrom rnd fuel (greeting_node s)

end Looping

/-! ## Retry engine (spec §4.2) and demo (`src/02-graph-patterns/retry.py`) -/

namespace Retry

/-- Modelled from the spec (§4.2): the retry loop over a pure,
attempt-indexed node function.  `fn attempt` is the result of invocation
number `attempt` (1-based); on a retryable failure with attempts
remaining the node is retried, otherwise the failure is fatal.  Returns
the number of attempts actually made together with the final result. -/
def retryGoP {ε δ : Type} (fn : Nat → Except ε δ) (retryable : ε → Bool) :
    Nat → Nat → Nat × Except ε δ
  | 0, attempt =>
    match fn attempt with
    | .ok v => (attempt, .ok v)
    | .error e => (attempt, .error e)
  | r + 1, attempt =>
    match fn attempt with
    | .ok v => (attempt, .ok v)
    | .error e =>
      if retryable e then retryGoP fn retryable r (attempt + 1)
      else (attempt, .error e)

/-- Modelled from the spec: run a node under a retry policy with
`maxAttempts` total attempts allowed (so `maxAttempts - 1` retries). -/
def runWithRetryP {ε δ : Type} (fn : Nat → Except ε δ)
    (retryable : ε → Bool) (maxAttempts : Nat) : Nat × Except ε δ :=
  retryGoP fn retryable (maxAttempts - 1) 1

/-- Modelled from the spec: the retry loop over a node whose invocation
also reads and writes an external flag state `σ` (the demo's global
`fail_once` flag). -/
def retryGoS {σ ε δ : Type} (fn : σ → σ × Except ε δ)
    (retryable : ε → Bool) : Nat → Nat → σ → σ × Nat × Except ε δ
  | 0, attempt, st =>
    match fn st with
    | (st', .ok v) => (st', attempt, .ok v)
    | (st', .error e) => (st', attempt, .error e)
  | r + 1, attempt, st =>
    match fn st with
    | (st', .ok v) => (st', attempt, .ok v)
    | (st', .error e) =>
      if retryable e then retryGoS fn retryable r (attempt + 1) st'
      else (st', attempt, .error e)

/-- Modelled from the spec: stateful variant of `runWithRetryP`. -/
def runWithRetryS {σ ε δ : Type} (fn : σ → σ × Except ε δ)
    (retryable : ε → Bool) (maxAttempts : Nat) (st : σ) :
    σ × Nat × Except ε δ :=
  retryGoS fn retryable (maxAttempts - 1) 1 st

/-- `decrement_node` of the retry demo: on its first invocation (the
global `fail_once` flag is set) it clears the flag and raises; afterwards
it returns the partial update `{"number": number - 1}`. -/
def decrement_node (number : Nat) (failOnce : Bool) : Bool × Except Unit Nat :=
  if failOnce then (false, .error ())
  else (failOnce, .ok (number - 1))

/-- `check_node` of the retry demo: route to `"stop"` when the number is
zero, else `"loop"`. -/
def check_node (number : Nat) : String :=
  if number = 0 then "stop" else "loop"

/-- The demo's retry policy accepts any exception
(`retry_on=(Exception,)`). -/
def retry_on_any : Unit → Bool := fun _ => true

/-- Modelled from the spec: the executor's loop for the retry demo graph
`START → print_node → (check_node: stop → END | loop → decrement_node →
print_node)`.  `print_node` returns the empty partial update `{}`, so it
leaves the state unchanged; `decrement_node` runs under
`RetryPolicy(max_attempts=3, retry_on=(Exception,))`.  The Boolean
argument threads the demo's global `fail_once` flag. -/
def demoRun : Nat → Bool → Nat → Option Nat
  | 0, _, _ => none
  | fuel + 1, failOnce, number =>
    if check_node number = "stop" then some number
    else
      match runWithRetryS (decrement_node number) retry_on_any 3 failOnce with
      | (failOnce', _, .ok number') => demoRun fuel failOnce' number'
      | (_, _, .error _) => none

/-- `app.invoke({"number": 5})` of the retry demo, with the global
`fail_once` flag initially set. -/
def demo_invoke : Option Nat :=
  demoRun 12 true 5

end Retry

/-! ## Sequential demo (`src/graph_patterns/sequential.py`) -/

namespace Sequential

/-- The sequential demo's state: a mapping from field name to value, where
`none` marks an absent key (the demo invokes the graph on the empty
state `{}`). -/
def SeqState := String → Option Nat

/-- A node of the sequential graph: reads the state and either returns a
partial update, or fails (`none` models a raised `KeyError` when a read
field is absent). -/
def SeqNodeFn := SeqState → Option (Partial String (Option Nat))

/-- Sets the initial value in the state: returns `{"value": 1}`. -/
def initialize_node : SeqNodeFn := fun _ =>
  some (fun k => if k = "value" then some (some 1) else none)

/-- Increments the value by 1: reads `state["value"]` (failing if absent)
and returns `{"value": value + 1}`. -/
def increment_node : SeqNodeFn := fun s =>
  (s "value").map (fun v => fun k => if k = "value" then some (some (v + 1)) else none)

/-- Doubles the value: reads `state["value"]` (failing if absent) and
returns `{"value": value * 2}`. -/
def double_node : SeqNodeFn := fun s =>
  (s "value").map (fun v => fun k => if k = "value" then some (some (v * 2)) else none)

/-- Applying one total (never-failing) node under the replace reducer:
merge the node's partial update into the state. -/
def applyNode (g : SeqState → Partial String (Option Nat)) (s : SeqState) :
    SeqState :=
  merge s (g s) (fun _ => replaceReducer)

/-- Modelled from the spec: the executor walks the direct-edge chain of
nodes in order, merging each node's partial result into the state under
the replace reducer (spec §4.5 steps 2-3, sequential special case); a
node failure aborts the run. -/
def seqRun : List SeqNodeFn → SeqState → Option SeqState
  | [], s => some s
  | f :: rest, s =>
    match f s with
    | none => none
    | some part => seqRun rest (merge s part (fun _ => replaceReducer))

/-- The empty initial state `{}`. -/
def emptyState : SeqState := fun _ => none

/-- `app.invoke({})`: the chain `initialize → increment → double → END`. -/
def seq_app_invoke (s : SeqState) : Option SeqState :=
  seqRun [initialize_node, increment_node, double_node] s

/-- The spec's concrete scenario node: increments the `count` field by 1
(run three times as nodes `A→B→C`). -/
def count_increment (s : SeqState) : Partial String (Option Nat) :=
  fun k => if k = "count" then some ((s "count").map (· + 1)) else none

/-- The spec scenario's initial state `{count: 0}`. -/
def countZeroState : SeqState := fun k => if k = "count" then some 0 else none

end Sequential

/-! ## Durability tiers (spec §4.4, documented in
`src/graph_basics/graph_api/durability.py`) -/

namespace Durability

/-- The three durability tiers. -/
inductive DurabilityMode where
  | exit | async | sync
  deriving DecidableEq, Repr

/-- Modelled from the spec: the checkpoint save issued after a step.
Under `async`/`sync` the step's state snapshot is appended to the store;
under `exit` no save is issued at step boundaries. -/
def saveAfterStep {σ : Type} (d : DurabilityMode) (store : List σ)
    (snap : σ) : List σ :=
  match d with
  | .exit => store
  | .async => store ++ [snap]
  | .sync => store ++ [snap]

/-- Modelled from the spec: the checkpoint save issued when the run
reaches its terminal state.  Under `exit` this is the single save of the
run; under `async`/`sync` the last step's save already covered it. -/
def saveAtExit {σ : Type} (d : DurabilityMode) (store : List σ)
    (snap : σ) : List σ :=
  match d with
  | .exit => store ++ [snap]
  | .async => store
  | .sync => store

/-- Modelled from the spec: an instrumented executor for a straight-line
run.  The checkpoint store for the thread is a list of state snapshots,
oldest first.  The executor applies each step to the state, issuing saves
per the durability tier.  The result carries the final state, the final
store, and the trace of store contents observed at each step boundary
(after each step, before the next begins). -/
def runStepsT {σ : Type} (d : DurabilityMode) :
    List (σ → σ) → σ → List σ → σ × List σ × List (List σ)
  | [], s, store => (s, saveAtExit d store s, [])
  | f :: rest, s, store =>
    let s' := f s
    let store' := saveAfterStep d store s'
    let r := runStepsT d rest s' store'
    (r.1, r.2.1, store' :: r.2.2)

end Durability

/-! ## Theorems -/

namespace Interrupt

/-- Claim C1: invoking the four-node interrupt graph with initial state
`{value: ""}` halts in the `INTERRUPTED` state at `node_b` with a recorded
pending interrupt id; a second invoke supplying the resume value `"C"`
re-invokes `node_b` with `"C"` injected as the return value of its
`interrupt()` call and runs to `COMPLETED` with final state
`{value: "abc"}`; supplying a resume value when the thread has no pending
interrupt, or a non-matching interrupt id, raises
`ResumeMismatchError`. -/
theorem interrupt_resume_round_trip :
    graph_app_invoke "" =
      .interrupted ⟨"a", .node_b, some node_b_interrupt_id⟩ ∧
    graph_app_resume ⟨"a", .node_b, some node_b_interrupt_id⟩
      node_b_interrupt_id "C" = .ok (.completed "abc") ∧
    (∀ (ck : Checkpoint) (rid : Nat) (v : String), ck.pending = none →
      graph_app_resume ck rid v = .error .resumeMismatch) ∧
    (∀ (ck : Checkpoint) (rid pid : Nat) (v : String),
      ck.pending = some pid → rid ≠ pid →
      graph_app_resume ck rid v = .error .resumeMismatch) := by
  refine ⟨by decide, rfl, ?_, ?_⟩
  · intro ck rid v h
    simp [graph_app_resume, h]
  · intro ck rid pid v h hne
    simp [graph_app_resume, h, hne]

/-- Witness for C1: resuming with no pending interrupt, and with a
non-matching id, both raise `ResumeMismatchError` at concrete inputs. -/
theorem interrupt_resume_round_trip_witness :
    graph_app_resume ⟨"a", .node_b, none⟩ 0 "C" = .error .resumeMismatch ∧
    graph_app_resume ⟨"a", .node_b, some 0⟩ 1 "C" = .error .resumeMismatch :=
  ⟨interrupt_resume_round_trip.2.2.1 ⟨"a", .node_b, none⟩ 0 "C" rfl,
   interrupt_resume_round_trip.2.2.2 ⟨"a", .node_b, some 0⟩ 1 0 "C" rfl
     (by decide)⟩

end Interrupt

namespace Looping

/-- Claim C2: for the conditional-edge loop graph whose router returns the
loop label while `counter < 5` and the finish label otherwise, with the
loop body incrementing the counter by 1 starting from `counter = 0`,
execution terminates after exactly 5 iterations of the loop body (5
numbers appended, whatever extra fuel is available, and no completion
with only 4 iterations' worth of fuel) and the final state satisfies
`counter == 5`. -/
theorem loop_terminates_after_five_iterations (rnd : Nat → Nat)
    (n : String) (xs : List Nat) (k : Nat) :
    loopFrom rnd (k + 5) ⟨n, xs, 0⟩ =
      some ⟨n, xs ++ [rnd 0, rnd 1, rnd 2, rnd 3, rnd 4], 5⟩ ∧
    loopFrom rnd 4 ⟨n, xs, 0⟩ = none := by
  constructor <;> simp [loopFrom, random_number_node, should_continue_node]

/-- Claim C10 (implicit): the looping graph's entry node unconditionally
resets the counter, so for every initial state — any initial counter `c`,
including the script's invocation with `counter = 6` — invoke terminates
with `counter == 5` and exactly 5 numbers appended to the numbers list;
the caller-supplied counter never affects the iteration count or the
final counter. -/
theorem entry_node_resets_counter (rnd : Nat → Nat) (n : String)
    (xs : List Nat) (c k : Nat) :
    app_invoke rnd (k + 5) ⟨n, xs, c⟩ =
      some ⟨"Hey " ++ n ++ ", how is your day going?",
        xs ++ [rnd 0, rnd 1, rnd 2, rnd 3, rnd 4], 5⟩ := by
  simp [app_invoke, greeting_node, loopFrom, random_number_node,
    should_continue_node]

end Looping

namespace Retry

/-- Helper: if every attempt from `a` to `a + r - 1` fails retryably and
attempt `a + r` succeeds, the retry loop with `r` retries remaining stops
at attempt `a + r` with the successful value. -/
theorem retryGoP_succeeds {ε δ : Type} (fn : Nat → Except ε δ)
    (retryable : ε → Bool) (v : δ) :
    ∀ r a : Nat,
      (∀ j, a ≤ j → j < a + r → ∃ e, fn j = .error e ∧ retryable e = true) →
      fn (a + r) = .ok v →
      retryGoP fn retryable r a = (a + r, .ok v) := by
  intro r
  induction r with
  | zero =>
    intro a _ hok
    rw [Nat.add_zero] at hok ⊢
    simp [retryGoP, hok]
  | succ r ih =>
    intro a hfail hok
    obtain ⟨e, he, hre⟩ := hfail a (Nat.le_refl a) (by omega)
    have hstep : retryGoP fn retryable (r + 1) a =
        retryGoP fn retryable r (a + 1) := by
      simp [retryGoP, he, hre]
    have hrec := ih (a + 1)
      (fun j h1 h2 => hfail j (by omega) (by omega))
      (by rw [show a + 1 + r = a + (r + 1) from by omega]; exact hok)
    rw [hstep, hrec, show a + 1 + r = a + (r + 1) from by omega]

/-- Claim C3: for every node with retry policy `{max_attempts = n,
retry_on covering its failure}`, if the node's function fails on its first
`n - 1` invocations and succeeds on the `n`-th, the run records exactly
`n` attempts and yields exactly one successful result (which the executor
merges into state once); and in the retry demo — `decrement_node` fails
once under `max_attempts = 3` — the run completes with `number`
decremented from 5 to 0. -/
theorem retry_semantics :
    (∀ (ε δ : Type) (fn : Nat → Except ε δ) (retryable : ε → Bool)
      (n : Nat) (v : δ),
      1 ≤ n →
      (∀ a, 1 ≤ a → a < n → ∃ e, fn a = .error e ∧ retryable e = true) →
      fn n = .ok v →
      runWithRetryP fn retryable n = (n, .ok v)) ∧
    demo_invoke = some 0 := by
  constructor
  · intro ε δ fn retryable n v h1 hfail hok
    have key := retryGoP_succeeds fn retryable v (n - 1) 1
      (fun j hj1 hj2 => hfail j hj1 (by omega))
      (by rw [show 1 + (n - 1) = n from by omega]; exact hok)
    rw [runWithRetryP, key, show 1 + (n - 1) = n from by omega]
  · decide

/-- Witness for C3: a node that fails retryably on attempts 1 and 2 and
succeeds on attempt 3, under `max_attempts = 3`, records 3 attempts and
one successful result. -/
theorem retry_semantics_witness :
    runWithRetryP (fun a => if a < 3 then Except.error 0 else Except.ok 7)
      (fun _ => true) 3 = (3, Except.ok 7) :=
  retry_semantics.1 Nat Nat
    (fun a => if a < 3 then Except.error 0 else Except.ok 7)
    (fun _ => true) 3 7 (by decide)
    (fun a _ h2 => ⟨0, by simp [h2], rfl⟩) rfl

end Retry

namespace Sequential

/-- Claim C4: invoking a graph of three nodes joined by direct edges,
each writing one field under the replace reducer, produces the sequential
composition of the three node functions applied to the initial state; in
the spec's scenario (three nodes each incrementing `count` by 1 from 0)
invoke yields `{count: 3}`, and in the code's sequential demo
(`initialize` sets `value = 1`, `increment` adds 1, `double` multiplies
by 2) invoke of the empty state yields `{value: 4}`. -/
theorem sequential_direct_edge_composition :
    (∀ (g1 g2 g3 : SeqState → Partial String (Option Nat)) (s : SeqState),
      seqRun [fun t => some (g1 t), fun t => some (g2 t),
          fun t => some (g3 t)] s =
        some (applyNode g3 (applyNode g2 (applyNode g1 s)))) ∧
    (seqRun [fun t => some (count_increment t), fun t => some (count_increment t),
        fun t => some (count_increment t)] countZeroState).map
      (fun f => f "count") = some (some 3) ∧
    (seq_app_invoke emptyState).map (fun f => f "value") = some (some 4) :=
  ⟨fun _ _ _ _ => rfl, rfl, rfl⟩

end Sequential

namespace Durability

/-- `load_latest` on the thread's checkpoint store (oldest first): the
most recent checkpoint, if any. -/
def load_latest {σ : Type} (store : List σ) : Option σ :=
  store.getLast?

/-- Claim C5: when durability is `"exit"`, at every step boundary before
the run reaches its terminal state the checkpoint store is exactly the
pre-run store (no save has been issued, so `load_latest` returns `none`
or a pre-run checkpoint only), and exactly one save occurs, at run exit,
appending the final state. -/
theorem exit_durability {σ : Type} (steps : List (σ → σ)) (s : σ)
    (store0 : List σ) :
    (runStepsT .exit steps s store0).2.1 =
      store0 ++ [(runStepsT .exit steps s store0).1] ∧
    (runStepsT .exit steps s store0).2.2 =
      List.replicate steps.length store0 ∧
    (∀ b ∈ (runStepsT .exit steps s store0).2.2,
      load_latest b = load_latest store0) := by
  have main : (runStepsT .exit steps s store0).2.1 =
      store0 ++ [(runStepsT .exit steps s store0).1] ∧
      (runStepsT .exit steps s store0).2.2 =
        List.replicate steps.length store0 := by
    induction steps generalizing s with
    | nil => simp [runStepsT, saveAtExit]
    | cons f rest ih =>
      have h := ih (f s)
      simp [runStepsT, saveAfterStep, List.replicate_succ, h.1, h.2]
  refine ⟨main.1, main.2, ?_⟩
  intro b hb
  rw [main.2] at hb
  rw [List.eq_of_mem_replicate hb]

/-- Witness for C5: at the one step boundary of a one-step run under
`exit` durability, `load_latest` is the pre-run `load_latest`. -/
theorem exit_durability_witness :
    load_latest ([] : List Nat) = load_latest ([] : List Nat) :=
  (exit_durability [fun n => n + 1] 5 []).2.2 [] (by decide)

end Durability

/-- Claim C6: for every current state, every partial update, and every
field-reducer assignment, `merge(current, partial, field_reducers)`
changes only the keys present in `partial` — each via its own reducer
applied to `current[key]` and `partial[key]` — and leaves every key
absent from `partial` unchanged; in particular a node returning the
empty partial `{}` (such as `print_node` in the retry demo) leaves the
whole state unchanged. -/
theorem merge_frame_condition {κ α : Type} (current : κ → α)
    (part : Partial κ α) (reducers : κ → α → α → α) (k : κ) :
    (part k = none → merge current part reducers k = current k) ∧
    (∀ v, part k = some v →
      merge current part reducers k = reducers k (current k) v) ∧
    merge current emptyPartial reducers = current :=
  ⟨fun h => by simp [merge, h],
   fun v h => by simp [merge, h],
   funext fun _ => rfl⟩

/-- Witness for C6: a key absent from the partial keeps its current
value, and a key present in the partial gets its reducer applied. -/
theorem merge_frame_condition_witness :
    merge (fun n => n) (fun j => if j = 0 then some 5 else none)
      (fun _ a b => a + b) 1 = 1 ∧
    merge (fun n => n) (fun j => if j = 0 then some 5 else none)
      (fun _ a b => a + b) 0 = 0 + 5 :=
  ⟨(merge_frame_condition (fun n => n) (fun j => if j = 0 then some 5 else none)
      (fun _ a b => a + b) 1).1 rfl,
   (merge_frame_condition (fun n => n) (fun j => if j = 0 then some 5 else none)
      (fun _ a b => a + b) 0).2.1 5 rfl⟩

/-- Helper: folding concatenation over a list of updates concatenates
them, in order, after the initial list. -/
theorem foldl_concat_eq_flatten {α : Type} :
    ∀ (updates : List (List α)) (init : List α),
      updates.foldl (fun acc u => acc ++ u) init = init ++ updates.flatten := by
  intro updates
  induction updates with
  | nil => intro init; simp
  | cons u us ih => intro init; simp [ih, List.append_assoc]

/-- Claim C7: for every sequence of partial updates to a field with an
append reducer (`operator.add` on a list), the final value of the field
is the concatenation of the initial value and the updates in application
order — so its length equals the sum of the input lengths, and the
relative order of elements within and across updates is preserved. -/
theorem append_reducer_additive {α : Type} (init : List α)
    (updates : List (List α)) :
    applyAppendUpdates init updates = init ++ updates.flatten ∧
    (applyAppendUpdates init updates).length =
      init.length + (updates.map List.length).sum := by
  have h : applyAppendUpdates init updates = init ++ updates.flatten :=
    foldl_concat_eq_flatten updates init
  refine ⟨h, ?_⟩
  rw [h]
  simp [List.length_flatten]

/-- Claim C8: for every existing sequence under the append+upsert reducer
(`add_messages`) and every incoming item whose identity (message id)
matches an existing item, merging replaces the matched item at its
existing position, leaving the sequence length and the positions of all
other items unchanged; items with no identity match are appended at the
end. -/
theorem add_messages_upsert (xs : List Message) (m : Message) :
    (m.id ∈ xs.map Message.id →
      (upsertOne xs m).length = xs.length ∧
      ∀ i : Nat, (upsertOne xs m)[i]? =
        (xs[i]?).map (fun x => if x.id = m.id then m else x)) ∧
    (m.id ∉ xs.map Message.id → upsertOne xs m = xs ++ [m]) ∧
    add_messages xs [m] = upsertOne xs m := by
  refine ⟨?_, ?_, rfl⟩
  · intro hmem
    have hany : xs.any (fun x => x.id = m.id) = true := by
      simp only [List.any_eq_true, decide_eq_true_eq]
      simp only [List.mem_map] at hmem
      obtain ⟨x, hx, hid⟩ := hmem
      exact ⟨x, hx, hid⟩
    constructor
    · simp [upsertOne, hany]
    · intro i
      simp [upsertOne, hany, List.getElem?_map]
  · intro hmem
    have hany : xs.any (fun x => x.id = m.id) = false := by
      simp only [List.any_eq_false, decide_eq_true_eq]
      intro x hx hid
      exact hmem (List.mem_map.mpr ⟨x, hx, hid⟩)
    simp [upsertOne, hany]

/-- Witness for C8: merging `⟨2, "B"⟩` into `[⟨1, "a"⟩, ⟨2, "b"⟩]` keeps
the length, and the item at position 1 becomes `⟨2, "B"⟩`. -/
theorem add_messages_upsert_witness :
    (upsertOne [⟨1, "a"⟩, ⟨2, "b"⟩] ⟨2, "B"⟩).length =
      ([⟨1, "a"⟩, ⟨2, "b"⟩] : List Message).length :=
  ((add_messages_upsert [⟨1, "a"⟩, ⟨2, "b"⟩] ⟨2, "B"⟩).1 (by decide)).1

/-- Claim C9 (against the source comment in
`src/graph_patterns/retry.py`): the claim says the default backoff is
exponential with `delay = base * 2^(attempt-1)`, but the source comment
documents the default `backoff_factor` as 1, under which
`delay = base * 1^(attempt-1) = base` is constant; the doubling behaviour
holds only for `backoff_factor = 2` (the comment's own example, and the
claim's formula). -/
theorem default_backoff_is_constant :
    backoffDelay defaultBackoffFactor 1 2 = 1 ∧
    ¬ (∀ base attempt : Nat,
        backoffDelay defaultBackoffFactor base attempt =
          base * 2 ^ (attempt - 1)) ∧
    (∀ base attempt : Nat,
      backoffDelay defaultBackoffFactor base attempt = base) ∧
    (∀ base attempt : Nat,
      backoffDelay 2 base (attempt + 2) = 2 * backoffDelay 2 base (attempt + 1)) := by
  refine ⟨rfl, ?_, ?_, ?_⟩
  · intro h
    have h12 := h 1 2
    simp [backoffDelay, defaultBackoffFactor] at h12
  · intro base attempt
    simp [backoffDelay, defaultBackoffFactor]
  · intro base attempt
    have h1 : attempt + 2 - 1 = attempt + 1 := by omega
    have h2 : attempt + 1 - 1 = attempt := by omega
    simp only [backoffDelay, h1, h2, pow_succ]
    ring

end LangGraph
